import Mathlib

/-!
Verification of the groq-client-rs chat client (`src/chat.rs`).

A shallow embedding of the request/response protocol engine of the
`groq-client-rs` repository.  Pure data types and the serde-derived
(de)serialization behaviour of `src/chat.rs` are translated into
executable Lean definitions; the HTTP transport is abstracted to the
data it produces (status class, body text, environment-provided proxy),
and the `futures` stream pipeline of `Chat::stream` is modelled as a
function over the finite list of line frames delivered by the transport.

Machine integers: `u64`/`usize` values are modelled as `Nat`; the one
place where `usize` subtraction can underflow
(`remove_last_n_chat_messages`) is modelled with checked semantics, the
`none` result standing for the debug-mode overflow panic.  The `f32`/`f64`
generation parameters are modelled as `Rat` (exact values with the
decidable order the range checks need).
-/

/-- JSON values, modelling the `serde_json::Value` tree that
`serde_json::to_string` / `from_str` work through.  Numbers are `Rat`
(exact; the payloads relevant here are integers and finite decimals). -/
inductive Json where
  | null : Json
  | bool (b : Bool) : Json
  | num (q : Rat) : Json
  | str (s : String) : Json
  | arr (xs : List Json) : Json
  | obj (fields : List (String × Json)) : Json
deriving Repr

/-- Look a field up in a serde struct's field list (first occurrence). -/
def lookupField (fields : List (String × Json)) (name : String) : Option Json :=
  (fields.find? (fun p => p.1 == name)).map (·.2)

/-- Field access on a JSON value (objects only). -/
def Json.getField : Json → String → Option Json
  | Json.obj fields, name => lookupField fields name
  | _, _ => Option.none

/-- A field that serde only emits when the `Option` is `some`
(`#[serde(skip_serializing_if = "Option::is_none")]`). -/
def optField (name : String) (o : Option Json) : List (String × Json) :=
  match o with
  | some v => [(name, v)]
  | none => []

example : lookupField [("a", Json.num 1), ("b", Json.null)] "b" = some Json.null := rfl

/-- `enum ChatRole` (`#[serde(rename_all = "lowercase")]`). -/
inductive ChatRole where
  | user : ChatRole
  | assistant : ChatRole
  | system : ChatRole
  | tool : ChatRole
deriving DecidableEq, Repr

/-- `enum ToolType` (single variant, `#[serde(rename = "function")]`). -/
inductive ToolType where
  | function : ToolType
deriving DecidableEq, Repr

/-- `struct ToolCallFunction { name: String, arguments: String }`. -/
structure ToolCallFunction where
  name : String
  arguments : String
deriving DecidableEq, Repr

/-- `struct ToolCall { id: String, r#type: ToolType, function: ToolCallFunction }`.
The raw-identifier field `r#type` is called `ttype` here. -/
structure ToolCall where
  id : String
  ttype : ToolType
  function : ToolCallFunction
deriving DecidableEq, Repr

/-- `struct ChatMessage` — role, optional content, optional tool calls,
optional tool-call correlation id. -/
structure ChatMessage where
  role : ChatRole
  content : Option String
  tool_calls : Option (List ToolCall)
  tool_call_id : Option String
deriving DecidableEq, Repr

/-- `ChatMessage::new(role, content, tool_call_id)`: wraps the content in
`Some` and leaves `tool_calls` empty. -/
def ChatMessage.new (role : ChatRole) (content : String)
    (tool_call_id : Option String) : ChatMessage :=
  { role := role
    content := some content
    tool_calls := none
    tool_call_id := tool_call_id }

/-- `enum ChatResponseFormat { JsonObject, JsonArray, Text }`. -/
inductive ChatResponseFormat where
  | jsonObject : ChatResponseFormat
  | jsonArray : ChatResponseFormat
  | text : ChatResponseFormat
deriving DecidableEq, Repr

/-- `enum ChatServiceTier { OnDemand, Auto, Flex }`. -/
inductive ChatServiceTier where
  | onDemand : ChatServiceTier
  | auto : ChatServiceTier
  | flex : ChatServiceTier
deriving DecidableEq, Repr

/-- `enum ToolChoiceValue { None, Auto, Required }`
(`#[serde(rename_all = "lowercase")]`). -/
inductive ToolChoiceValue where
  | none : ToolChoiceValue
  | auto : ToolChoiceValue
  | required : ToolChoiceValue
deriving DecidableEq, Repr

/-- `struct ToolFunction { name: Option<String> }`. -/
structure ToolFunction where
  name : Option String
deriving DecidableEq, Repr

/-- `struct ToolChoiceObject { #[serde(rename = "type")] tool_type, function }`. -/
structure ToolChoiceObject where
  tool_type : ToolType
  function : ToolFunction
deriving DecidableEq, Repr

/-- `enum ToolChoice` (`#[serde(untagged)]`): a flat keyword or a forced
specific function. -/
inductive ToolChoice where
  | value (v : ToolChoiceValue) : ToolChoice
  | object (o : ToolChoiceObject) : ToolChoice
deriving DecidableEq, Repr

/-- `struct Function` of `src/chat.rs` (renamed: `Function` is taken by
Mathlib): optional description, optional name, optional JSON-schema
parameters (an opaque `serde_json::Value`). -/
structure FunctionDecl where
  description : Option String
  name : Option String
  parameters : Option Json
deriving Repr

/-- `struct Tool { function: Function, #[serde(rename = "type")] tool_type }`. -/
structure Tool where
  function : FunctionDecl
  tool_type : ToolType
deriving Repr

/-- `struct ChatRequest` — the Request Configuration, fields in source
order.  `u32`/`u64` are `Nat`; `f32` generation parameters are `Rat`. -/
structure ChatRequest where
  model : String
  messages : List ChatMessage
  frequency_penalty : Rat
  max_completion_tokens : Option Nat
  parallel_tool_calls : Bool
  presence_penalty : Rat
  reasoning_format : Option String
  response_format : Option ChatResponseFormat
  seed : Option Nat
  service_tier : Option ChatServiceTier
  stream : Bool
  temperature : Rat
  top_p : Rat
  tool_choice : Option ToolChoice
  tools : List Tool
deriving Repr

/-- `ChatRequest::new(model, messages)`: the defaults used by the builder. -/
def ChatRequest.new (model : String) (messages : List ChatMessage) : ChatRequest :=
  { model := model
    messages := messages
    frequency_penalty := 0
    max_completion_tokens := Option.none
    parallel_tool_calls := true
    presence_penalty := 0
    reasoning_format := Option.none
    response_format := Option.none
    seed := Option.none
    service_tier := Option.none
    stream := false
    temperature := 1
    top_p := 1
    tool_choice := Option.none
    tools := [] }

/-- `struct Chat { api_key, api_url, chat_request }`. -/
structure Chat where
  api_key : String
  api_url : String
  chat_request : ChatRequest
deriving Repr

/-- `Chat::new(api_key, model)`: fixed default endpoint, empty conversation. -/
def Chat.new (api_key : String) (model : String) : Chat :=
  { api_key := api_key
    api_url := "https://api.groq.com/openai/v1/chat/completions"
    chat_request := ChatRequest.new model [] }

/-- `struct ChatUsage` — token counters (`u64` as `Nat`) and timings
(`f64` as `Rat`). -/
structure ChatUsage where
  queue_time : Rat
  prompt_tokens : Nat
  prompt_time : Rat
  completion_tokens : Nat
  completion_time : Rat
  total_tokens : Nat
  total_time : Rat
deriving DecidableEq, Repr

/-- `struct ChatXGroq { id: String }`. -/
structure ChatXGroq where
  id : String
deriving DecidableEq, Repr

/-- `struct ChatChoice` — index, the unified message, optional logprobs
placeholder, optional finish reason. -/
structure ChatChoice where
  index : Nat
  message : ChatMessage
  logprobs : Option String
  finish_reason : Option String
deriving DecidableEq, Repr

/-- `struct ChatResponse` — the Response shape. -/
structure ChatResponse where
  id : String
  object : String
  created : Nat
  model : String
  choices : List ChatChoice
  usage : Option ChatUsage
  system_fingerprint : String
  x_groq : ChatXGroq
deriving DecidableEq, Repr

/-- `struct ChatErrorDetails { message, r#type, param, code }`. -/
structure ChatErrorDetails where
  message : String
  ttype : String
  param : Option String
  code : Option String
deriving DecidableEq, Repr

/-- `struct ChatError { error: ChatErrorDetails }` — the typed
service-reported failure. -/
structure ChatError where
  error : ChatErrorDetails
deriving DecidableEq, Repr

/-! ## Builder operations (`impl Chat`)

Rust's `&mut self` methods become `Chat → … → Chat`.  The validated
setters return `Result<(), String>` and mutate only on the `Ok` path, so
they become `Chat → Rat → Except String Unit × Chat`, the returned
`Chat` being the state after the call. -/

/-- `Chat::set_chat_messages`. -/
def Chat.set_chat_messages (c : Chat) (messages : List ChatMessage) : Chat :=
  { c with chat_request := { c.chat_request with messages := messages } }

/-- `Chat::get_chat_messages`. -/
def Chat.get_chat_messages (c : Chat) : List ChatMessage :=
  c.chat_request.messages

/-- `Chat::set_api_url`. -/
def Chat.set_api_url (c : Chat) (api_url : String) : Chat :=
  { c with api_url := api_url }

/-- `Chat::set_model`. -/
def Chat.set_model (c : Chat) (model : String) : Chat :=
  { c with chat_request := { c.chat_request with model := model } }

/-- `Chat::add_chat_message` — push at the tail. -/
def Chat.add_chat_message (c : Chat) (message : ChatMessage) : Chat :=
  { c with chat_request :=
      { c.chat_request with messages := c.chat_request.messages ++ [message] } }

/-- `Chat::clear_chat_messages`. -/
def Chat.clear_chat_messages (c : Chat) : Chat :=
  { c with chat_request := { c.chat_request with messages := [] } }

/-- `Chat::remove_last_n_chat_messages`:
`self.chat_request.messages.truncate(self.chat_request.messages.len() - n)`.
The `usize` subtraction `len - n` is modelled checked: `none` is the
debug-mode overflow panic when `n > len`; otherwise `truncate` keeps the
first `len - n` messages. -/
def Chat.remove_last_n_chat_messages (c : Chat) (n : Nat) : Option Chat :=
  if n ≤ c.chat_request.messages.length then
    some { c with chat_request :=
      { c.chat_request with
        messages := c.chat_request.messages.take (c.chat_request.messages.length - n) } }
  else
    Option.none

/-- `Chat::remove_first_n_chat_messages`:
`let to_remove = n.min(len); messages.drain(0..to_remove)` — the count is
clamped, so this is total. -/
def Chat.remove_first_n_chat_messages (c : Chat) (n : Nat) : Chat :=
  let to_remove := min n c.chat_request.messages.length
  { c with chat_request :=
      { c.chat_request with messages := c.chat_request.messages.drop to_remove } }

/-- `Chat::remove_last_chat_message` (`Vec::pop`). -/
def Chat.remove_last_chat_message (c : Chat) : Chat :=
  { c with chat_request :=
      { c.chat_request with
        messages := c.chat_request.messages.take (c.chat_request.messages.length - 1) } }

/-- `Chat::number_of_chat_messages`. -/
def Chat.number_of_chat_messages (c : Chat) : Nat :=
  c.chat_request.messages.length

/-- `Chat::remove_first_chat_message` (guarded `Vec::remove(0)`). -/
def Chat.remove_first_chat_message (c : Chat) : Chat :=
  if c.chat_request.messages.isEmpty then c
  else { c with chat_request :=
    { c.chat_request with messages := c.chat_request.messages.drop 1 } }

/-- `Chat::set_frequency_penalty` — rejects values outside `[-2, 2]`
before mutating. -/
def Chat.set_frequency_penalty (c : Chat) (frequency_penalty : Rat) :
    Except String Unit × Chat :=
  if frequency_penalty < -2 ∨ frequency_penalty > 2 then
    (Except.error "Frequency penalty must be between -2.0 and 2.0", c)
  else
    (Except.ok (),
      { c with chat_request :=
        { c.chat_request with frequency_penalty := frequency_penalty } })

/-- `Chat::set_max_completion_tokens`. -/
def Chat.set_max_completion_tokens (c : Chat) (max_completion_tokens : Nat) : Chat :=
  { c with chat_request :=
    { c.chat_request with max_completion_tokens := some max_completion_tokens } }

/-- `Chat::set_parallel_tool_calls`. -/
def Chat.set_parallel_tool_calls (c : Chat) (parallel_tool_calls : Bool) : Chat :=
  { c with chat_request :=
    { c.chat_request with parallel_tool_calls := parallel_tool_calls } }

/-- `Chat::set_presence_penalty` — rejects values outside `[-2, 2]`
before mutating. -/
def Chat.set_presence_penalty (c : Chat) (presence_penalty : Rat) :
    Except String Unit × Chat :=
  if presence_penalty < -2 ∨ presence_penalty > 2 then
    (Except.error "Presence penalty must be between -2.0 and 2.0", c)
  else
    (Except.ok (),
      { c with chat_request :=
        { c.chat_request with presence_penalty := presence_penalty } })

/-- `Chat::set_reasoning_format`. -/
def Chat.set_reasoning_format (c : Chat) (reasoning_format : String) : Chat :=
  { c with chat_request :=
    { c.chat_request with reasoning_format := some reasoning_format } }

/-- `Chat::set_response_format`. -/
def Chat.set_response_format (c : Chat) (response_format : ChatResponseFormat) : Chat :=
  { c with chat_request :=
    { c.chat_request with response_format := some response_format } }

/-- `Chat::set_seed`. -/
def Chat.set_seed (c : Chat) (seed : Nat) : Chat :=
  { c with chat_request := { c.chat_request with seed := some seed } }

/-- `Chat::set_service_tier`. -/
def Chat.set_service_tier (c : Chat) (service_tier : ChatServiceTier) : Chat :=
  { c with chat_request :=
    { c.chat_request with service_tier := some service_tier } }

/-- `Chat::set_temperature` — rejects values outside `[0, 2]` before
mutating (the source's error text says "0.0 and 1.0" but its check is
against 2.0; the text is kept verbatim). -/
def Chat.set_temperature (c : Chat) (temperature : Rat) :
    Except String Unit × Chat :=
  if temperature < 0 ∨ temperature > 2 then
    (Except.error "Temperature must be between 0.0 and 1.0", c)
  else
    (Except.ok (),
      { c with chat_request :=
        { c.chat_request with temperature := temperature } })

/-- `Chat::set_top_p` — rejects values outside `[0, 1]` before mutating. -/
def Chat.set_top_p (c : Chat) (top_p : Rat) : Except String Unit × Chat :=
  if top_p < 0 ∨ top_p > 1 then
    (Except.error "Top P must be between 0.0 and 1.0", c)
  else
    (Except.ok (),
      { c with chat_request := { c.chat_request with top_p := top_p } })

/-- `Chat::set_tool_choice`. -/
def Chat.set_tool_choice (c : Chat) (tool_choice : ToolChoice) : Chat :=
  { c with chat_request :=
    { c.chat_request with tool_choice := some tool_choice } }

/-- `Chat::add_tool`. -/
def Chat.add_tool (c : Chat) (tool : Tool) : Chat :=
  { c with chat_request :=
    { c.chat_request with tools := c.chat_request.tools ++ [tool] } }

/-- `Chat::clear_tools`. -/
def Chat.clear_tools (c : Chat) : Chat :=
  { c with chat_request := { c.chat_request with tools := [] } }

/-- `Chat::get_temperature`. -/
def Chat.get_temperature (c : Chat) : Rat :=
  c.chat_request.temperature

/-- `Chat::get_model`. -/
def Chat.get_model (c : Chat) : String :=
  c.chat_request.model

/-- `Chat::get_frequency_penalty`. -/
def Chat.get_frequency_penalty (c : Chat) : Rat :=
  c.chat_request.frequency_penalty

/-- `Chat::get_presence_penalty`. -/
def Chat.get_presence_penalty (c : Chat) : Rat :=
  c.chat_request.presence_penalty

/-- `Chat::get_top_p`. -/
def Chat.get_top_p (c : Chat) : Rat :=
  c.chat_request.top_p

/-! ## Serialization (derived `Serialize` impls)

serde's derived serializers, written out per type: struct fields in
declaration order, unit enum variants as their (possibly renamed) name,
`Option` fields as `null`/value unless marked
`skip_serializing_if = "Option::is_none"`, in which case an absent field. -/

/-- Serialize a `ChatRole` (`rename_all = "lowercase"`). -/
def encodeChatRole : ChatRole → Json
  | ChatRole.user => Json.str "user"
  | ChatRole.assistant => Json.str "assistant"
  | ChatRole.system => Json.str "system"
  | ChatRole.tool => Json.str "tool"

/-- Serialize a `ToolType` (`rename = "function"`). -/
def encodeToolType : ToolType → Json
  | ToolType.function => Json.str "function"

/-- Serialize an `Option<String>` field that is always emitted
(`None` becomes `null`). -/
def encodeOptStr : Option String → Json
  | Option.none => Json.null
  | some s => Json.str s

/-- Serialize a `ToolCallFunction`. -/
def encodeToolCallFunction (f : ToolCallFunction) : Json :=
  Json.obj [("name", Json.str f.name), ("arguments", Json.str f.arguments)]

/-- Serialize a `ToolCall` (the `r#type` field is emitted as `type`). -/
def encodeToolCall (tc : ToolCall) : Json :=
  Json.obj [("id", Json.str tc.id),
            ("type", encodeToolType tc.ttype),
            ("function", encodeToolCallFunction tc.function)]

/-- Serialize a `ChatMessage`: `role` and `content` always present,
`tool_calls`/`tool_call_id` skipped when `None`. -/
def encodeChatMessage (m : ChatMessage) : Json :=
  Json.obj ([("role", encodeChatRole m.role), ("content", encodeOptStr m.content)]
    ++ optField "tool_calls" (m.tool_calls.map (fun tcs => Json.arr (tcs.map encodeToolCall)))
    ++ optField "tool_call_id" (m.tool_call_id.map Json.str))

/-- Serialize a `ChatResponseFormat` (no rename attribute: serde uses the
variant names verbatim). -/
def encodeChatResponseFormat : ChatResponseFormat → Json
  | ChatResponseFormat.jsonObject => Json.str "JsonObject"
  | ChatResponseFormat.jsonArray => Json.str "JsonArray"
  | ChatResponseFormat.text => Json.str "Text"

/-- Serialize a `ChatServiceTier` (variant names verbatim). -/
def encodeChatServiceTier : ChatServiceTier → Json
  | ChatServiceTier.onDemand => Json.str "OnDemand"
  | ChatServiceTier.auto => Json.str "Auto"
  | ChatServiceTier.flex => Json.str "Flex"

/-- Serialize a `ToolChoiceValue` (`rename_all = "lowercase"`). -/
def encodeToolChoiceValue : ToolChoiceValue → Json
  | ToolChoiceValue.none => Json.str "none"
  | ToolChoiceValue.auto => Json.str "auto"
  | ToolChoiceValue.required => Json.str "required"

/-- Serialize a `ToolFunction` (its `name` is always emitted, `null` when
absent). -/
def encodeToolFunction (f : ToolFunction) : Json :=
  Json.obj [("name", encodeOptStr f.name)]

/-- Serialize a `ToolChoiceObject`. -/
def encodeToolChoiceObject (o : ToolChoiceObject) : Json :=
  Json.obj [("type", encodeToolType o.tool_type),
            ("function", encodeToolFunction o.function)]

/-- Serialize a `ToolChoice` (`untagged`: the variant's own
representation, no wrapper). -/
def encodeToolChoice : ToolChoice → Json
  | ToolChoice.value v => encodeToolChoiceValue v
  | ToolChoice.object o => encodeToolChoiceObject o

/-- Serialize the repo's `Function` struct: all three fields skipped when
`None`. -/
def encodeFunctionDecl (f : FunctionDecl) : Json :=
  Json.obj (optField "description" (f.description.map Json.str)
    ++ optField "name" (f.name.map Json.str)
    ++ optField "parameters" f.parameters)

/-- Serialize a `Tool` (field order: `function`, then `type`). -/
def encodeTool (t : Tool) : Json :=
  Json.obj [("function", encodeFunctionDecl t.function),
            ("type", encodeToolType t.tool_type)]

/-- Serialize a `ChatRequest`: fields in declaration order; the
`skip_serializing_if` fields (`reasoning_format`, `response_format`,
`seed`, `service_tier`, `tool_choice`, and `tools` when empty) are
omitted; `max_completion_tokens` has no skip attribute and is emitted as
`null` when absent. -/
def encodeChatRequest (r : ChatRequest) : Json :=
  Json.obj ([("model", Json.str r.model),
             ("messages", Json.arr (r.messages.map encodeChatMessage)),
             ("frequency_penalty", Json.num r.frequency_penalty),
             ("max_completion_tokens",
               match r.max_completion_tokens with
               | Option.none => Json.null
               | some n => Json.num n),
             ("parallel_tool_calls", Json.bool r.parallel_tool_calls),
        ("presence_penalty", Json.num r.presence_penalty)]
    ++ optField "reasoning_format" (r.reasoning_format.map Json.str)
    ++ optField "response_format" (r.response_format.map encodeChatResponseFormat)
    ++ optField "seed" (r.seed.map (fun n => Json.num n))
    ++ optField "service_tier" (r.service_tier.map encodeChatServiceTier)
    ++ [("stream", Json.bool r.stream),
        ("temperature", Json.num r.temperature),
        ("top_p", Json.num r.top_p)]
    ++ optField "tool_choice" (r.tool_choice.map encodeToolChoice)
    ++ (if r.tools.isEmpty then [] else [("tools", Json.arr (r.tools.map encodeTool))]))

/-! ## Deserialization

The derived `Deserialize` impls for the response-side types, and the
hand-written `impl Deserialize for ChatChoice`.  serde conventions kept:
unknown fields are ignored, a missing required field is a
"missing field" error, a missing or `null` `Option` field is `None`. -/

/-- A required field: `missing field` error when absent. -/
def reqField (fields : List (String × Json)) (name : String) : Except String Json :=
  match lookupField fields name with
  | some v => Except.ok v
  | Option.none => Except.error ("missing field " ++ name)

/-- Decode a JSON string. -/
def decodeString : Json → Except String String
  | Json.str s => Except.ok s
  | _ => Except.error "invalid type: expected string"

/-- Decode a `u64`/`u32`: a non-negative integral JSON number. -/
def decodeU64 : Json → Except String Nat
  | Json.num q =>
    if q.den = 1 ∧ 0 ≤ q.num then Except.ok q.num.toNat
    else Except.error "invalid value: expected unsigned integer"
  | _ => Except.error "invalid type: expected unsigned integer"

/-- Decode an `f64` (any JSON number). -/
def decodeF64 : Json → Except String Rat
  | Json.num q => Except.ok q
  | _ => Except.error "invalid type: expected number"

/-- Decode an `Option<String>` field from its (possibly absent) value:
missing or `null` is `None`. -/
def decodeOptString : Option Json → Except String (Option String)
  | Option.none => Except.ok Option.none
  | some Json.null => Except.ok Option.none
  | some (Json.str s) => Except.ok (some s)
  | some _ => Except.error "invalid type: expected string or null"

/-- Decode a `ChatRole` (`rename_all = "lowercase"`). -/
def decodeChatRole (j : Json) : Except String ChatRole :=
  match j with
  | Json.str "user" => Except.ok ChatRole.user
  | Json.str "assistant" => Except.ok ChatRole.assistant
  | Json.str "system" => Except.ok ChatRole.system
  | Json.str "tool" => Except.ok ChatRole.tool
  | _ => Except.error "unknown variant for ChatRole"

/-- Decode a `ToolType` (only `"function"`). -/
def decodeToolType (j : Json) : Except String ToolType :=
  match j with
  | Json.str "function" => Except.ok ToolType.function
  | _ => Except.error "unknown variant for ToolType"

/-- Decode a `ToolCallFunction`. -/
def decodeToolCallFunction (j : Json) : Except String ToolCallFunction :=
  match j with
  | Json.obj fs => do
    let name ← reqField fs "name" >>= decodeString
    let arguments ← reqField fs "arguments" >>= decodeString
    Except.ok { name := name, arguments := arguments }
  | _ => Except.error "invalid type: expected ToolCallFunction object"

/-- Decode a `ToolCall`. -/
def decodeToolCall (j : Json) : Except String ToolCall :=
  match j with
  | Json.obj fs => do
    let id ← reqField fs "id" >>= decodeString
    let ttype ← reqField fs "type" >>= decodeToolType
    let function ← reqField fs "function" >>= decodeToolCallFunction
    Except.ok { id := id, ttype := ttype, function := function }
  | _ => Except.error "invalid type: expected ToolCall object"

/-- serde's sequence decode: elements in order, first failure wins. -/
def decodeList {α : Type} (dec : Json → Except String α) :
    List Json → Except String (List α)
  | [] => Except.ok []
  | x :: xs => do
    let v ← dec x
    let vs ← decodeList dec xs
    Except.ok (v :: vs)

/-- Decode the optional `tool_calls` field: missing or `null` is `None`,
an array is decoded element-wise. -/
def decodeToolCallsField : Option Json → Except String (Option (List ToolCall))
  | Option.none => Except.ok Option.none
  | some Json.null => Except.ok Option.none
  | some (Json.arr xs) => (decodeList decodeToolCall xs).map some
  | some _ => Except.error "invalid type: expected array or null for tool_calls"

/-- Decode a `ChatMessage`. -/
def decodeChatMessage (j : Json) : Except String ChatMessage :=
  match j with
  | Json.obj fs => do
    let role ← reqField fs "role" >>= decodeChatRole
    let content ← decodeOptString (lookupField fs "content")
    let tool_calls ← decodeToolCallsField (lookupField fs "tool_calls")
    let tool_call_id ← decodeOptString (lookupField fs "tool_call_id")
    Except.ok { role := role, content := content,
                tool_calls := tool_calls, tool_call_id := tool_call_id }
  | _ => Except.error "invalid type: expected ChatMessage object"

/-- Decode an `Option<ChatMessage>` helper field (`#[serde(default)]`
`delta`/`message`): missing or `null` is `None`. -/
def decodeOptChatMessage : Option Json → Except String (Option ChatMessage)
  | Option.none => Except.ok Option.none
  | some Json.null => Except.ok Option.none
  | some j => (decodeChatMessage j).map some

/-- The resolution step of `impl Deserialize for ChatChoice`:
`helper.delta.or(helper.message).ok_or_else(missing_field)`. -/
def resolveDeltaMessage (delta message : Option ChatMessage) :
    Except String ChatMessage :=
  match delta.or message with
  | some m => Except.ok m
  | Option.none => Except.error "missing field delta or message"

/-- The hand-written `impl Deserialize for ChatChoice`: decode the
permissive `ChatChoiceHelper` (optional `delta` and `message`), then
unify via `resolveDeltaMessage`. -/
def decodeChatChoice (j : Json) : Except String ChatChoice :=
  match j with
  | Json.obj fs => do
    let index ← reqField fs "index" >>= decodeU64
    let delta ← decodeOptChatMessage (lookupField fs "delta")
    let message ← decodeOptChatMessage (lookupField fs "message")
    let logprobs ← decodeOptString (lookupField fs "logprobs")
    let finish_reason ← decodeOptString (lookupField fs "finish_reason")
    let unified ← resolveDeltaMessage delta message
    Except.ok { index := index, message := unified,
                logprobs := logprobs, finish_reason := finish_reason }
  | _ => Except.error "invalid type: expected ChatChoice object"

/-- Decode a `ChatUsage`. -/
def decodeChatUsage (j : Json) : Except String ChatUsage :=
  match j with
  | Json.obj fs => do
    let queue_time ← reqField fs "queue_time" >>= decodeF64
    let prompt_tokens ← reqField fs "prompt_tokens" >>= decodeU64
    let prompt_time ← reqField fs "prompt_time" >>= decodeF64
    let completion_tokens ← reqField fs "completion_tokens" >>= decodeU64
    let completion_time ← reqField fs "completion_time" >>= decodeF64
    let total_tokens ← reqField fs "total_tokens" >>= decodeU64
    let total_time ← reqField fs "total_time" >>= decodeF64
    Except.ok { queue_time := queue_time, prompt_tokens := prompt_tokens,
                prompt_time := prompt_time, completion_tokens := completion_tokens,
                completion_time := completion_time, total_tokens := total_tokens,
                total_time := total_time }
  | _ => Except.error "invalid type: expected ChatUsage object"

/-- Decode a `ChatXGroq`. -/
def decodeChatXGroq (j : Json) : Except String ChatXGroq :=
  match j with
  | Json.obj fs => do
    let id ← reqField fs "id" >>= decodeString
    Except.ok { id := id }
  | _ => Except.error "invalid type: expected ChatXGroq object"

/-- Decode the optional `usage` field. -/
def decodeUsageField : Option Json → Except String (Option ChatUsage)
  | Option.none => Except.ok Option.none
  | some Json.null => Except.ok Option.none
  | some j => (decodeChatUsage j).map some

/-- Decode a `ChatResponse` (`serde_json::from_str::<ChatResponse>` after
parsing). -/
def decodeChatResponse (j : Json) : Except String ChatResponse :=
  match j with
  | Json.obj fs => do
    let id ← reqField fs "id" >>= decodeString
    let object ← reqField fs "object" >>= decodeString
    let created ← reqField fs "created" >>= decodeU64
    let model ← reqField fs "model" >>= decodeString
    let choices ←
      match lookupField fs "choices" with
      | some (Json.arr xs) => decodeList decodeChatChoice xs
      | some _ => Except.error "invalid type: expected array for choices"
      | Option.none => Except.error "missing field choices"
    let usage ← decodeUsageField (lookupField fs "usage")
    let system_fingerprint ← reqField fs "system_fingerprint" >>= decodeString
    let x_groq ← reqField fs "x_groq" >>= decodeChatXGroq
    Except.ok { id := id, object := object, created := created, model := model,
                choices := choices, usage := usage,
                system_fingerprint := system_fingerprint, x_groq := x_groq }
  | _ => Except.error "invalid type: expected ChatResponse object"

/-- Decode a `ChatErrorDetails` (its `r#type` field reads from `type`). -/
def decodeChatErrorDetails (j : Json) : Except String ChatErrorDetails :=
  match j with
  | Json.obj fs => do
    let message ← reqField fs "message" >>= decodeString
    let ttype ← reqField fs "type" >>= decodeString
    let param ← decodeOptString (lookupField fs "param")
    let code ← decodeOptString (lookupField fs "code")
    Except.ok { message := message, ttype := ttype, param := param, code := code }
  | _ => Except.error "invalid type: expected ChatErrorDetails object"

/-- Decode a `ChatError` (`serde_json::from_str::<ChatError>` after
parsing). -/
def decodeChatError (j : Json) : Except String ChatError :=
  match j with
  | Json.obj fs => do
    let err ← reqField fs "error" >>= decodeChatErrorDetails
    Except.ok { error := err }
  | _ => Except.error "invalid type: expected ChatError object"

/-- Decode the `messages` field of a serialized `ChatRequest` back into
the ordered conversation (the Conversation subset of the wire body). -/
def decodeMessagesField (j : Json) : Except String (List ChatMessage) :=
  match j with
  | Json.obj fs =>
    match lookupField fs "messages" with
    | some (Json.arr xs) => decodeList decodeChatMessage xs
    | some _ => Except.error "invalid type: expected array for messages"
    | Option.none => Except.error "missing field messages"
  | _ => Except.error "invalid type: expected object"

/-! ## JSON text syntax

The syntax layer of `serde_json::from_str` (an external crate), modelled
as a recursive-descent reader producing the `Json` tree.  It covers the
grammar the wire bodies here use: `null`, booleans, strings with the
simple escapes, integer and decimal-fraction numbers, arrays, objects.
Recursion is fuelled; `parseJson` supplies more fuel than any input can
consume. -/

/-- JSON insignificant whitespace. -/
def isJsonWs (c : Char) : Bool :=
  c = ' ' || c = '\n' || c = '\t' || c = '\r'

/-- Drop leading whitespace. -/
def skipWs : List Char → List Char
  | [] => []
  | c :: cs => if isJsonWs c then skipWs cs else c :: cs

/-- Read the remainder of a string literal (after the opening quote),
returning its characters and the rest of the input. -/
def parseStringRest : List Char → Except String (List Char × List Char)
  | [] => Except.error "unterminated string"
  | '"' :: r => Except.ok ([], r)
  | '\\' :: e :: r => do
    let c ←
      match e with
      | '"' => Except.ok '"'
      | '\\' => Except.ok '\\'
      | '/' => Except.ok '/'
      | 'n' => Except.ok '\n'
      | 't' => Except.ok '\t'
      | 'r' => Except.ok '\r'
      | _ => Except.error "unsupported escape"
    let (cs, r') ← parseStringRest r
    Except.ok (c :: cs, r')
  | '\\' :: [] => Except.error "unterminated escape"
  | c :: r => do
    let (cs, r') ← parseStringRest r
    Except.ok (c :: cs, r')

/-- Digits to a natural number. -/
def natFromDigits (ds : List Char) : Nat :=
  ds.foldl (fun acc c => 10 * acc + (c.toNat - 48)) 0

/-- Read a number: optional minus, integer digits, optional decimal
fraction. -/
def parseNumber (cs : List Char) : Except String (Json × List Char) :=
  let (neg, cs1) :=
    match cs with
    | '-' :: r => (true, r)
    | _ => (false, cs)
  let ds := cs1.takeWhile Char.isDigit
  let cs2 := cs1.dropWhile Char.isDigit
  if ds.isEmpty then Except.error "invalid number" else
  match cs2 with
  | '.' :: r =>
    let fs := r.takeWhile Char.isDigit
    let cs3 := r.dropWhile Char.isDigit
    if fs.isEmpty then Except.error "invalid number" else
    let q : Rat := (natFromDigits ds : Rat) + (natFromDigits fs : Rat) / ((10 : Rat) ^ fs.length)
    Except.ok (Json.num (if neg then -q else q), cs3)
  | _ =>
    let q : Rat := (natFromDigits ds : Nat)
    Except.ok (Json.num (if neg then -q else q), cs2)

mutual

/-- Read one JSON value. -/
def parseValue : Nat → List Char → Except String (Json × List Char)
  | 0, _ => Except.error "out of fuel"
  | fuel + 1, cs =>
    match skipWs cs with
    | 'n' :: 'u' :: 'l' :: 'l' :: rest => Except.ok (Json.null, rest)
    | 't' :: 'r' :: 'u' :: 'e' :: rest => Except.ok (Json.bool true, rest)
    | 'f' :: 'a' :: 'l' :: 's' :: 'e' :: rest => Except.ok (Json.bool false, rest)
    | '"' :: rest => do
      let (cs', r) ← parseStringRest rest
      Except.ok (Json.str (String.mk cs'), r)
    | '[' :: rest =>
      (match skipWs rest with
       | ']' :: r => Except.ok (Json.arr [], r)
       | r => do
         let (xs, r') ← parseItems fuel r
         Except.ok (Json.arr xs, r'))
    | '\x7b' :: rest =>
      (match skipWs rest with
       | '\x7d' :: r => Except.ok (Json.obj [], r)
       | r => do
         let (ms, r') ← parseMembers fuel r
         Except.ok (Json.obj ms, r'))
    | c :: rest =>
      if c = '-' ∨ c.isDigit then parseNumber (c :: rest)
      else Except.error "unexpected character"
    | [] => Except.error "unexpected end of input"

/-- Read the comma-separated items of a non-empty array (closing with `]`). -/
def parseItems : Nat → List Char → Except String (List Json × List Char)
  | 0, _ => Except.error "out of fuel"
  | fuel + 1, cs => do
    let (v, r) ← parseValue fuel cs
    match skipWs r with
    | ',' :: r2 => do
      let (xs, r3) ← parseItems fuel r2
      Except.ok (v :: xs, r3)
    | ']' :: r2 => Except.ok ([v], r2)
    | _ => Except.error "expected comma or closing bracket"

/-- Read the members of a non-empty object (closing with the right
brace). -/
def parseMembers : Nat → List Char → Except String (List (String × Json) × List Char)
  | 0, _ => Except.error "out of fuel"
  | fuel + 1, cs =>
    match skipWs cs with
    | '"' :: r => do
      let (k, r1) ← parseStringRest r
      match skipWs r1 with
      | ':' :: r2 => do
        let (v, r3) ← parseValue fuel r2
        match skipWs r3 with
        | ',' :: r4 => do
          let (ms, r5) ← parseMembers fuel r4
          Except.ok ((String.mk k, v) :: ms, r5)
        | '\x7d' :: r4 => Except.ok ([(String.mk k, v)], r4)
        | _ => Except.error "expected comma or closing brace"
      | _ => Except.error "expected colon"
    | _ => Except.error "expected string key"

end

/-- Parse a whole JSON document (no trailing garbage). -/
def parseJson (s : String) : Except String Json :=
  match parseValue (s.length + 1) s.toList with
  | Except.ok (v, rest) =>
    if (skipWs rest).isEmpty then Except.ok v
    else Except.error "trailing characters"
  | Except.error e => Except.error e

/-- `serde_json::from_str::<ChatResponse>`. -/
def fromStrChatResponse (s : String) : Except String ChatResponse :=
  parseJson s >>= decodeChatResponse

/-- `serde_json::from_str::<ChatError>`. -/
def fromStrChatError (s : String) : Except String ChatError :=
  parseJson s >>= decodeChatError

/-! ## The send / stream transport boundary -/

/-- `reqwest::StatusCode::is_client_error()`: the 4xx class. -/
def isClientError (status : Nat) : Bool :=
  400 ≤ status && status < 500

/-- The failure modes of `send`/`stream` (their `Box<dyn Error>` results,
split by provenance): the typed service error, or a surfaced serde
decode failure. -/
inductive SendError where
  | chatError (e : ChatError) : SendError
  | decodeError (msg : String) : SendError
deriving DecidableEq, Repr

/-- The response-processing tail of `Chat::send` (lines 211–219), which
is also the error path of `Chat::stream` (lines 233–237): on a 4xx
status decode the body as a `ChatError` and fail with it, the `?` on the
decode surfacing a decode failure instead; on success decode the body as
a `ChatResponse`. -/
def processSendResponse (status : Nat) (body : String) :
    Except SendError ChatResponse :=
  if isClientError status then
    match fromStrChatError body with
    | Except.ok ce => Except.error (SendError.chatError ce)
    | Except.error e => Except.error (SendError.decodeError e)
  else
    match fromStrChatResponse body with
    | Except.ok r => Except.ok r
    | Except.error e => Except.error (SendError.decodeError e)

/-- Rust's `str::trim`, over the characters of the line (the whitespace
in the line protocol is the ASCII kind recognised by `isJsonWs`). -/
def trimChars (cs : List Char) : List Char :=
  ((cs.dropWhile isJsonWs).reverse.dropWhile isJsonWs).reverse

/-- The per-line closure inside `Chat::stream`'s `filter_map`
(lines 246–267): trim; silently skip an empty line; strip a leading
`data:` marker (`str::strip_prefix` written as a take-5 test plus drop)
and trim again; skip the `[DONE]` sentinel; otherwise decode the text as
a `ChatResponse`; an upstream line error becomes an error item. -/
def processLine (lineResult : Except String String) :
    Option (Except String ChatResponse) :=
  match lineResult with
  | Except.ok line =>
    let trimmed := trimChars line.toList
    if trimmed.isEmpty then Option.none
    else
      let jsonStr :=
        if trimmed.take 5 = "data:".toList then trimChars (trimmed.drop 5)
        else trimmed
      if jsonStr = "[DONE]".toList then Option.none
      else some (fromStrChatResponse (String.mk jsonStr))
  | Except.error e => some (Except.error e)

/-- `Chat::stream`'s produced sequence over the line frames the transport
delivers: `futures::StreamExt::filter_map` applied to the line stream,
i.e. exactly the `some` results of `processLine`, in order. -/
def streamItems (lines : List (Except String String)) :
    List (Except String ChatResponse) :=
  lines.filterMap processLine

/-- The wire body of `Chat::send` (line 198):
`serde_json::to_string(&self.chat_request)` — the stored configuration,
unmodified. -/
def Chat.sendBody (c : Chat) : Json :=
  encodeChatRequest c.chat_request

/-- The wire body of `Chat::stream` (line 224): also
`serde_json::to_string(&self.chat_request)`, unmodified. -/
def Chat.streamBody (c : Chat) : Json :=
  encodeChatRequest c.chat_request

/-- The part of an HTTP client's configuration the code controls: the
optional proxy. -/
structure HttpClientConfig where
  proxy : Option String
deriving DecidableEq, Repr

/-- Client construction in `Chat::send` (lines 193–197): read
`HTTPS_PROXY` from the process environment at call time and, when set,
install it as the proxy. -/
def sendClientConfig (httpsProxyEnv : Option String) : HttpClientConfig :=
  match httpsProxyEnv with
  | some proxy => { proxy := some proxy }
  | Option.none => { proxy := Option.none }

/-- Client construction in `Chat::stream` (line 223):
`reqwest::Client::new()` — a default client; the environment is never
consulted. -/
def streamClientConfig (_httpsProxyEnv : Option String) : HttpClientConfig :=
  { proxy := Option.none }

/-! ## Claim C1 — streaming framing at the `[DONE]` sentinel -/

/-- A valid `ChatResponse` wire body (delta-shaped choice). -/
def c1Body1 : String :=
  "\x7b\"id\":\"a\",\"object\":\"chat.completion.chunk\",\"created\":1,\"model\":\"m\",\"choices\":[\x7b\"index\":0,\"delta\":\x7b\"role\":\"assistant\",\"content\":\"hi\"\x7d\x7d],\"system_fingerprint\":\"f\",\"x_groq\":\x7b\"id\":\"g\"\x7d\x7d"

/-- A second valid `ChatResponse` wire body, placed after the sentinel. -/
def c1Body2 : String :=
  "\x7b\"id\":\"b\",\"object\":\"chat.completion.chunk\",\"created\":2,\"model\":\"m\",\"choices\":[\x7b\"index\":0,\"delta\":\x7b\"role\":\"assistant\",\"content\":\"yo\"\x7d\x7d],\"system_fingerprint\":\"f\",\"x_groq\":\x7b\"id\":\"g\"\x7d\x7d"

/-- The decode of `c1Body1`. -/
def c1Resp1 : ChatResponse :=
  { id := "a", object := "chat.completion.chunk", created := 1, model := "m"
    choices := [{ index := 0
                  message := { role := ChatRole.assistant, content := some "hi"
                               tool_calls := Option.none, tool_call_id := Option.none }
                  logprobs := Option.none, finish_reason := Option.none }]
    usage := Option.none, system_fingerprint := "f", x_groq := { id := "g" } }

/-- The decode of `c1Body2`. -/
def c1Resp2 : ChatResponse :=
  { id := "b", object := "chat.completion.chunk", created := 2, model := "m"
    choices := [{ index := 0
                  message := { role := ChatRole.assistant, content := some "yo"
                               tool_calls := Option.none, tool_call_id := Option.none }
                  logprobs := Option.none, finish_reason := Option.none }]
    usage := Option.none, system_fingerprint := "f", x_groq := { id := "g" } }

/-- The line sequence of claim C1: a data line, a blank, the sentinel,
and a trailing data line. -/
def c1Lines : List (Except String String) :=
  [Except.ok ("data: " ++ c1Body1), Except.ok "", Except.ok "data: [DONE]",
   Except.ok ("data: " ++ c1Body2)]

set_option maxRecDepth 16384

/-- Claim C1 fails on the code: on the claimed line sequence the produced
sequence has two decoded items, not one, and its second item is the
decode of the line occurring after the `[DONE]` sentinel — because the
`filter_map` closure returns `None` for the sentinel, which merely skips
that line (exactly as it skips the blank line) and does not terminate
the stream. -/
theorem c1_sentinel_line_not_terminal_cex :
    (streamItems c1Lines).length = 2 ∧
    streamItems c1Lines = [Except.ok c1Resp1, Except.ok c1Resp2] :=
  ⟨rfl, rfl⟩

/-- Claim C1, amended: given the input line sequence
`["data: {...}", "", "data: [DONE]", "data: {...}"]`, the first data line
yields a decoded item, the blank line is silently skipped, the `[DONE]`
sentinel line is also silently skipped (it does not terminate the
produced sequence), and the data line after the sentinel is processed
and yielded as a second decoded item. -/
theorem c1_stream_framing_amended :
    streamItems c1Lines = [Except.ok c1Resp1, Except.ok c1Resp2] ∧
    processLine (Except.ok "") = Option.none ∧
    processLine (Except.ok "data: [DONE]") = Option.none :=
  ⟨rfl, rfl, rfl⟩

/-! ## Claim C2 — the `stream` flag in the two wire bodies -/

/-- Claim C2 fails on the code: the streaming send serializes the stored
configuration unchanged (`serde_json::to_string(&self.chat_request)`), so
for a freshly built `Chat` the streaming wire body carries
`"stream": false`, not the forced `true` the claim states. -/
theorem c2_stream_body_flag_cex :
    (Chat.new "key" "model").streamBody.getField "stream"
      = some (Json.bool false) ∧
    (Chat.new "key" "model").streamBody.getField "stream"
      ≠ some (Json.bool true) := by
  refine ⟨rfl, ?_⟩
  intro h
  rw [show (Chat.new "key" "model").streamBody.getField "stream"
        = some (Json.bool false) from rfl] at h
  simp at h

/-- Claim C2, amended: neither send operation forces the `stream` flag —
both the buffered and the streaming send serialize the flag's stored
value unchanged; since the builder initializes `stream` to `false` and
offers no setter for it, both operations in fact serialize
`"stream": false`. -/
theorem c2_stream_flag_passthrough_amended :
    (∀ c : Chat,
      c.sendBody.getField "stream" = some (Json.bool c.chat_request.stream) ∧
      c.streamBody.getField "stream" = some (Json.bool c.chat_request.stream)) ∧
    (∀ k m : String, (Chat.new k m).chat_request.stream = false) := by
  constructor
  · intro c
    rcases c with ⟨key, url, r⟩
    rcases r with ⟨mdl, msgs, fp, mct, ptc, pp, rf, respf, sd, st, strm, temp, tp, tc, tools⟩
    constructor <;>
      cases mct <;> cases rf <;> cases respf <;> cases sd <;> cases st <;> rfl
  · intro k m
    rfl

/-! ## Claim C5 — validated generation-parameter setters -/

/-- Claim C5: for each generation parameter, every value inside the
valid range (temperature in `[0,2]`, top_p in `[0,1]`,
frequency/presence penalty in `[-2,2]`) is accepted — the setter returns
`Ok` and the corresponding getter on the resulting state returns exactly
the set value — while every value outside the range is rejected — the
setter returns an error and the whole configuration is left unchanged
(so the getter still returns the previous value). -/
theorem c5_generation_param_setters (c : Chat) (v : Rat) :
    ((0 ≤ v ∧ v ≤ 2) →
      (c.set_temperature v).1 = Except.ok () ∧
      (c.set_temperature v).2.get_temperature = v) ∧
    (¬(0 ≤ v ∧ v ≤ 2) →
      (∃ e, (c.set_temperature v).1 = Except.error e) ∧
      (c.set_temperature v).2 = c) ∧
    ((0 ≤ v ∧ v ≤ 1) →
      (c.set_top_p v).1 = Except.ok () ∧
      (c.set_top_p v).2.get_top_p = v) ∧
    (¬(0 ≤ v ∧ v ≤ 1) →
      (∃ e, (c.set_top_p v).1 = Except.error e) ∧
      (c.set_top_p v).2 = c) ∧
    ((-2 ≤ v ∧ v ≤ 2) →
      (c.set_frequency_penalty v).1 = Except.ok () ∧
      (c.set_frequency_penalty v).2.get_frequency_penalty = v) ∧
    (¬(-2 ≤ v ∧ v ≤ 2) →
      (∃ e, (c.set_frequency_penalty v).1 = Except.error e) ∧
      (c.set_frequency_penalty v).2 = c) ∧
    ((-2 ≤ v ∧ v ≤ 2) →
      (c.set_presence_penalty v).1 = Except.ok () ∧
      (c.set_presence_penalty v).2.get_presence_penalty = v) ∧
    (¬(-2 ≤ v ∧ v ≤ 2) →
      (∃ e, (c.set_presence_penalty v).1 = Except.error e) ∧
      (c.set_presence_penalty v).2 = c) := by
  refine ⟨?_, ?_, ?_, ?_, ?_, ?_, ?_, ?_⟩
  · rintro ⟨h1, h2⟩
    have hc : ¬(v < 0 ∨ v > 2) := by rintro (h | h) <;> linarith
    simp [Chat.set_temperature, Chat.get_temperature, hc]
  · intro h
    have hc : v < 0 ∨ v > 2 := by
      rcases not_and_or.mp h with h' | h'
      · exact Or.inl (not_le.mp h')
      · exact Or.inr (not_le.mp h')
    refine ⟨⟨"Temperature must be between 0.0 and 1.0", ?_⟩, ?_⟩ <;>
      simp [Chat.set_temperature, hc]
  · rintro ⟨h1, h2⟩
    have hc : ¬(v < 0 ∨ v > 1) := by rintro (h | h) <;> linarith
    simp [Chat.set_top_p, Chat.get_top_p, hc]
  · intro h
    have hc : v < 0 ∨ v > 1 := by
      rcases not_and_or.mp h with h' | h'
      · exact Or.inl (not_le.mp h')
      · exact Or.inr (not_le.mp h')
    refine ⟨⟨"Top P must be between 0.0 and 1.0", ?_⟩, ?_⟩ <;>
      simp [Chat.set_top_p, hc]
  · rintro ⟨h1, h2⟩
    have hc : ¬(v < -2 ∨ v > 2) := by rintro (h | h) <;> linarith
    simp [Chat.set_frequency_penalty, Chat.get_frequency_penalty, hc]
  · intro h
    have hc : v < -2 ∨ v > 2 := by
      rcases not_and_or.mp h with h' | h'
      · exact Or.inl (not_le.mp h')
      · exact Or.inr (not_le.mp h')
    refine ⟨⟨"Frequency penalty must be between -2.0 and 2.0", ?_⟩, ?_⟩ <;>
      simp [Chat.set_frequency_penalty, hc]
  · rintro ⟨h1, h2⟩
    have hc : ¬(v < -2 ∨ v > 2) := by rintro (h | h) <;> linarith
    simp [Chat.set_presence_penalty, Chat.get_presence_penalty, hc]
  · intro h
    have hc : v < -2 ∨ v > 2 := by
      rcases not_and_or.mp h with h' | h'
      · exact Or.inl (not_le.mp h')
      · exact Or.inr (not_le.mp h')
    refine ⟨⟨"Presence penalty must be between -2.0 and 2.0", ?_⟩, ?_⟩ <;>
      simp [Chat.set_presence_penalty, hc]

/-- Witness for claim C5: the setter contract instantiated on a fresh
`Chat` with a concrete in-range and a concrete out-of-range value for
each of the four parameters. -/
theorem c5_generation_param_setters_witness :
    (((Chat.new "k" "m").set_temperature (3/2)).1 = Except.ok () ∧
      ((Chat.new "k" "m").set_temperature (3/2)).2.get_temperature = 3/2) ∧
    ((∃ e, ((Chat.new "k" "m").set_temperature 3).1 = Except.error e) ∧
      ((Chat.new "k" "m").set_temperature 3).2 = Chat.new "k" "m") ∧
    (((Chat.new "k" "m").set_top_p (1/2)).1 = Except.ok () ∧
      ((Chat.new "k" "m").set_top_p (1/2)).2.get_top_p = 1/2) ∧
    ((∃ e, ((Chat.new "k" "m").set_top_p (3/2)).1 = Except.error e) ∧
      ((Chat.new "k" "m").set_top_p (3/2)).2 = Chat.new "k" "m") ∧
    (((Chat.new "k" "m").set_frequency_penalty (-2)).1 = Except.ok () ∧
      ((Chat.new "k" "m").set_frequency_penalty (-2)).2.get_frequency_penalty = -2) ∧
    ((∃ e, ((Chat.new "k" "m").set_frequency_penalty (-5/2)).1 = Except.error e) ∧
      ((Chat.new "k" "m").set_frequency_penalty (-5/2)).2 = Chat.new "k" "m") ∧
    (((Chat.new "k" "m").set_presence_penalty 2).1 = Except.ok () ∧
      ((Chat.new "k" "m").set_presence_penalty 2).2.get_presence_penalty = 2) ∧
    ((∃ e, ((Chat.new "k" "m").set_presence_penalty (5/2)).1 = Except.error e) ∧
      ((Chat.new "k" "m").set_presence_penalty (5/2)).2 = Chat.new "k" "m") :=
  ⟨(c5_generation_param_setters (Chat.new "k" "m") (3/2)).1 (by norm_num),
   (c5_generation_param_setters (Chat.new "k" "m") 3).2.1 (by norm_num),
   (c5_generation_param_setters (Chat.new "k" "m") (1/2)).2.2.1 (by norm_num),
   (c5_generation_param_setters (Chat.new "k" "m") (3/2)).2.2.2.1 (by norm_num),
   (c5_generation_param_setters (Chat.new "k" "m") (-2)).2.2.2.2.1 (by norm_num),
   (c5_generation_param_setters (Chat.new "k" "m") (-5/2)).2.2.2.2.2.1 (by norm_num),
   (c5_generation_param_setters (Chat.new "k" "m") 2).2.2.2.2.2.2.1 (by norm_num),
   (c5_generation_param_setters (Chat.new "k" "m") (5/2)).2.2.2.2.2.2.2 (by norm_num)⟩

/-! ## Claim C6 — the HTTPS proxy override -/

/-- Claim C6 fails on the code: the streaming send never consults the
environment — `Chat::stream` builds its client with
`reqwest::Client::new()`, so even when `HTTPS_PROXY` is set the client
used for the streaming request carries no proxy. -/
theorem c6_stream_ignores_proxy_cex :
    (streamClientConfig (some "http://proxy.example:3128")).proxy = Option.none ∧
    (sendClientConfig (some "http://proxy.example:3128")).proxy
      = some "http://proxy.example:3128" :=
  ⟨rfl, rfl⟩

/-- Claim C6, amended: only the buffered send reads the optional
`HTTPS_PROXY` override from the process environment at call time (per
call, uncached) and applies it to its client; the streaming send builds
a default client and never reads or applies the proxy override. -/
theorem c6_proxy_amended :
    ∀ env : Option String,
      (sendClientConfig env).proxy = env ∧
      (streamClientConfig env).proxy = Option.none := by
  intro env
  cases env <;> exact ⟨rfl, rfl⟩

/-! ## Claim C7 — the client-error path -/

/-- The simulated HTTP 400 error body of claim C7. -/
def c7ErrBody : String :=
  "\x7b\"error\":\x7b\"message\":\"bad request\",\"type\":\"invalid_request_error\",\"param\":null,\"code\":null\x7d\x7d"

/-- The typed error `c7ErrBody` decodes to. -/
def c7Err : ChatError :=
  { error := { message := "bad request", ttype := "invalid_request_error"
               param := Option.none, code := Option.none } }

/-- Claim C7: for every client-error-class status, a send (the buffered
one and, identically, the streaming one — both run the same error path)
whose body is the given error JSON fails with the typed service error
whose message equals "bad request"; and when the error body does not
decode as an `Error` record, the decode failure itself is surfaced
(here: the body `"oops"` is not JSON). -/
theorem c7_client_error_body (status : Nat)
    (h1 : 400 ≤ status) (h2 : status < 500) :
    processSendResponse status c7ErrBody
      = Except.error (SendError.chatError c7Err) ∧
    c7Err.error.message = "bad request" ∧
    processSendResponse status "oops"
      = Except.error (SendError.decodeError "unexpected character") := by
  have hc : isClientError status = true := by
    simp [isClientError]
    omega
  refine ⟨?_, rfl, ?_⟩ <;>
    simp [processSendResponse, hc, fromStrChatError, c7ErrBody]
  · rfl
  · rfl

/-- Witness for claim C7: the error path instantiated at status 400. -/
theorem c7_client_error_body_witness :
    processSendResponse 400 c7ErrBody
      = Except.error (SendError.chatError c7Err) ∧
    c7Err.error.message = "bad request" ∧
    processSendResponse 400 "oops"
      = Except.error (SendError.decodeError "unexpected character") :=
  c7_client_error_body 400 (by norm_num) (by norm_num)

/-! ## Claims C8 and C10 — head/tail message removal -/

/-- A two-message conversation used to instantiate the removal claims. -/
def c8Chat : Chat :=
  ((Chat.new "k" "m").add_chat_message
      (ChatMessage.new ChatRole.system "one" Option.none)).add_chat_message
    (ChatMessage.new ChatRole.user "two" Option.none)

/-- Claim C8 fails on the code for removal counts above the message
count: on a one-message conversation, removing the last 2 messages
neither clamps to an empty conversation nor returns a typed rejection —
the method returns unit in the source and its `usize` length subtraction
underflows, which is the checked-arithmetic panic modelled as `none`
(in particular the result is not `some` of any conversation, empty or
otherwise).  Head-removal of the same count, by contrast, clamps. -/
theorem c8_remove_overflow_cex :
    ((Chat.new "k" "m").add_chat_message
        (ChatMessage.new ChatRole.user "hello" Option.none)).remove_last_n_chat_messages 2
      = Option.none ∧
    (((Chat.new "k" "m").add_chat_message
        (ChatMessage.new ChatRole.user "hello" Option.none)).remove_first_n_chat_messages 2).get_chat_messages
      = [] :=
  ⟨rfl, rfl⟩

/-- Claim C8, amended: for every conversation of `N` messages and every
`K ≤ N`, removing the last `K` leaves exactly `N − K` messages in their
original relative order, and removing the first `K` leaves the last
`N − K` messages in original relative order; for `K > N`, head-removal
clamps to an empty conversation, while tail-removal neither clamps nor
is rejected — its `usize` length subtraction underflows (the
checked-arithmetic panic, `none` here). -/
theorem c8_message_removal_amended (c : Chat) (k : Nat) :
    (k ≤ c.number_of_chat_messages →
      ∃ c', c.remove_last_n_chat_messages k = some c' ∧
        c'.number_of_chat_messages = c.number_of_chat_messages - k ∧
        ∀ i, i < c.number_of_chat_messages - k →
          c'.get_chat_messages[i]? = c.get_chat_messages[i]?) ∧
    (k ≤ c.number_of_chat_messages →
      (c.remove_first_n_chat_messages k).number_of_chat_messages
        = c.number_of_chat_messages - k ∧
      ∀ i, (c.remove_first_n_chat_messages k).get_chat_messages[i]?
        = c.get_chat_messages[k + i]?) ∧
    (c.number_of_chat_messages < k →
      (c.remove_first_n_chat_messages k).get_chat_messages = [] ∧
      c.remove_last_n_chat_messages k = Option.none) := by
  refine ⟨?_, ?_, ?_⟩
  · intro hk
    simp only [Chat.number_of_chat_messages] at hk
    refine ⟨{ c with chat_request := { c.chat_request with
        messages := c.chat_request.messages.take (c.chat_request.messages.length - k) } },
      ?_, ?_, ?_⟩
    · simp only [Chat.remove_last_n_chat_messages]
      rw [if_pos hk]
    · simp [Chat.number_of_chat_messages, List.length_take]
    · intro i hi
      simp only [Chat.number_of_chat_messages] at hi
      simp only [Chat.get_chat_messages]
      exact List.getElem?_take_of_lt hi
  · intro hk
    simp [Chat.number_of_chat_messages] at hk
    constructor
    · simp [Chat.remove_first_n_chat_messages, Chat.number_of_chat_messages,
        Nat.min_eq_left hk]
    · intro i
      simp [Chat.remove_first_n_chat_messages, Chat.get_chat_messages,
        Nat.min_eq_left hk, List.getElem?_drop]
  · intro hk
    simp [Chat.number_of_chat_messages] at hk
    constructor
    · simp [Chat.remove_first_n_chat_messages, Chat.get_chat_messages,
        Nat.min_eq_right (Nat.le_of_lt hk)]
    · simp [Chat.remove_last_n_chat_messages, Chat.number_of_chat_messages]
      omega

/-- Witness for claim C8: the removal contract instantiated on the
two-message conversation `c8Chat`, with `K = 1 ≤ 2` for both in-range
parts and `K = 3 > 2` for the out-of-range part. -/
theorem c8_message_removal_amended_witness :
    (∃ c', c8Chat.remove_last_n_chat_messages 1 = some c' ∧
      c'.number_of_chat_messages = c8Chat.number_of_chat_messages - 1 ∧
      ∀ i, i < c8Chat.number_of_chat_messages - 1 →
        c'.get_chat_messages[i]? = c8Chat.get_chat_messages[i]?) ∧
    ((c8Chat.remove_first_n_chat_messages 1).number_of_chat_messages
        = c8Chat.number_of_chat_messages - 1 ∧
      ∀ i, (c8Chat.remove_first_n_chat_messages 1).get_chat_messages[i]?
        = c8Chat.get_chat_messages[1 + i]?) ∧
    ((c8Chat.remove_first_n_chat_messages 3).get_chat_messages = [] ∧
      c8Chat.remove_last_n_chat_messages 3 = Option.none) :=
  ⟨(c8_message_removal_amended c8Chat 1).1 (by decide),
   (c8_message_removal_amended c8Chat 1).2.1 (by decide),
   (c8_message_removal_amended c8Chat 3).2.2 (by decide)⟩

/-- Claim C10: when `n` exceeds the current message count,
`remove_last_n_chat_messages` computes the new length as `count - n` on
`usize`, which underflows — it does not clamp to an empty conversation
and, under checked arithmetic, panics (the `none` of the model); by
contrast `remove_first_n_chat_messages` clamps `n` to the available
count and leaves the conversation empty — being a total function of the
state, it never panics. -/
theorem c10_remove_last_underflow (c : Chat) (k : Nat)
    (h : c.number_of_chat_messages < k) :
    c.remove_last_n_chat_messages k = Option.none ∧
    (∀ c', c.remove_last_n_chat_messages k ≠ some c') ∧
    (c.remove_first_n_chat_messages k).get_chat_messages = [] := by
  simp [Chat.number_of_chat_messages] at h
  refine ⟨?_, ?_, ?_⟩
  · simp [Chat.remove_last_n_chat_messages]
    omega
  · intro c' hc'
    rw [Chat.remove_last_n_chat_messages, if_neg (by omega)] at hc'
    exact Option.noConfusion hc'
  · simp [Chat.remove_first_n_chat_messages, Chat.get_chat_messages,
      Nat.min_eq_right (Nat.le_of_lt h)]

/-- Witness for claim C10: a one-message conversation with `n = 2`. -/
theorem c10_remove_last_underflow_witness :
    ((Chat.new "k" "m").add_chat_message
        (ChatMessage.new ChatRole.user "hi" Option.none)).remove_last_n_chat_messages 2
      = Option.none ∧
    (∀ c', ((Chat.new "k" "m").add_chat_message
        (ChatMessage.new ChatRole.user "hi" Option.none)).remove_last_n_chat_messages 2
      ≠ some c') ∧
    (((Chat.new "k" "m").add_chat_message
        (ChatMessage.new ChatRole.user "hi" Option.none)).remove_first_n_chat_messages 2).get_chat_messages
      = [] :=
  c10_remove_last_underflow
    ((Chat.new "k" "m").add_chat_message
      (ChatMessage.new ChatRole.user "hi" Option.none)) 2 (by decide)

/-! ## Claim C9 — round-trip of the conversation through the wire body -/

/-- Decoding inverts encoding on a `ToolCall`. -/
theorem decodeToolCall_encodeToolCall (tc : ToolCall) :
    decodeToolCall (encodeToolCall tc) = Except.ok tc := by
  rcases tc with ⟨id, ty, ⟨n, a⟩⟩
  cases ty
  rfl

/-- A sequence decode inverts an element-wise encode, preserving order. -/
theorem decodeList_map_encode {α : Type} (dec : Json → Except String α)
    (enc : α → Json) (h : ∀ a, dec (enc a) = Except.ok a) :
    ∀ xs : List α, decodeList dec (xs.map enc) = Except.ok xs := by
  intro xs
  induction xs with
  | nil => rfl
  | cons x xs ih =>
    show (do
      let v ← dec (enc x)
      let vs ← decodeList dec (xs.map enc)
      Except.ok (v :: vs)) = Except.ok (x :: xs)
    rw [h, ih]
    rfl

/-- Decoding inverts encoding on a `ChatMessage` (role, content,
tool_calls and tool_call_id all come back unchanged). -/
theorem decodeChatMessage_encodeChatMessage (m : ChatMessage) :
    decodeChatMessage (encodeChatMessage m) = Except.ok m := by
  rcases m with ⟨role, content, tcs, tcid⟩
  cases tcs with
  | none => cases role <;> cases content <;> cases tcid <;> rfl
  | some xs =>
    have hxs := decodeList_map_encode decodeToolCall encodeToolCall
      decodeToolCall_encodeToolCall xs
    cases role <;> cases content <;> cases tcid <;>
      (simp [encodeChatMessage, decodeChatMessage, optField, lookupField, reqField,
        decodeChatRole, decodeOptString, decodeToolCallsField, hxs, Except.map]
       try rfl)

/-- Claim C9: serializing a Request Configuration to JSON and decoding
the `messages` field back yields the same ordered message sequence —
each message's role, content, tool_calls (in order, without loss) and
tool_call_id survive the round trip. -/
theorem c9_messages_roundtrip (r : ChatRequest) :
    decodeMessagesField (encodeChatRequest r) = Except.ok r.messages := by
  show decodeList decodeChatMessage (r.messages.map encodeChatMessage)
    = Except.ok r.messages
  exact decodeList_map_encode decodeChatMessage encodeChatMessage
    decodeChatMessage_encodeChatMessage r.messages

/-! ## Claim C3 — per-choice delta/message unification -/

/-- The message of the spec's unification example. -/
def c3Message : ChatMessage :=
  { role := ChatRole.assistant, content := some "hi"
    tool_calls := Option.none, tool_call_id := Option.none }

/-- The JSON of `c3Message`, as it appears inside a choice payload. -/
def c3MessageJson : Json :=
  Json.obj [("role", Json.str "assistant"), ("content", Json.str "hi")]

/-- A delta-shaped choice payload. -/
def c3DeltaPayload : Json :=
  Json.obj [("index", Json.num 0), ("delta", c3MessageJson),
            ("finish_reason", Json.null)]

/-- The same payload with `message` in place of `delta`. -/
def c3MessagePayload : Json :=
  Json.obj [("index", Json.num 0), ("message", c3MessageJson),
            ("finish_reason", Json.null)]

/-- A choice payload with neither `delta` nor `message`. -/
def c3NeitherPayload : Json :=
  Json.obj [("index", Json.num 0), ("finish_reason", Json.null)]

/-- Claim C3: decoding one `ChatChoice` resolves the optional
`delta`/`message` pair of the permissive intermediate record as `delta`
if present, else `message`, and fails with a missing-field decode error
when both are absent; in particular the delta-shaped and the
message-shaped example payloads decode to the identical unified message,
and the payload with neither field fails with the missing-field error. -/
theorem c3_choice_unification :
    (∀ (x : ChatMessage) (m : Option ChatMessage),
      resolveDeltaMessage (some x) m = Except.ok x) ∧
    (∀ x : ChatMessage,
      resolveDeltaMessage Option.none (some x) = Except.ok x) ∧
    resolveDeltaMessage Option.none Option.none
      = Except.error "missing field delta or message" ∧
    decodeChatChoice c3DeltaPayload
      = Except.ok { index := 0, message := c3Message
                    logprobs := Option.none, finish_reason := Option.none } ∧
    decodeChatChoice c3MessagePayload
      = Except.ok { index := 0, message := c3Message
                    logprobs := Option.none, finish_reason := Option.none } ∧
    decodeChatChoice c3DeltaPayload = decodeChatChoice c3MessagePayload ∧
    decodeChatChoice c3NeitherPayload
      = Except.error "missing field delta or message" :=
  ⟨fun _ _ => rfl, fun _ => rfl, rfl, rfl, rfl, rfl, rfl⟩

/-! ## Claim C4 — empty `choices` on a successful decode -/

/-- A complete `ChatResponse` wire body whose `choices` array is empty. -/
def c4Body : String :=
  "\x7b\"id\":\"resp\",\"object\":\"chat.completion\",\"created\":3,\"model\":\"m\",\"choices\":[],\"system_fingerprint\":\"f\",\"x_groq\":\x7b\"id\":\"g\"\x7d\x7d"

/-- Claim C4 fails on the code: the `ChatResponse` decoder accepts a
body whose `choices` array is empty — decoding `c4Body` succeeds and the
decoded `choices` sequence is empty, so such a JSON body does exist. -/
theorem c4_empty_choices_accepted_cex :
    (fromStrChatResponse c4Body).map ChatResponse.choices = Except.ok [] :=
  rfl

/-- Claim C4, amended: the decoder does not enforce non-emptiness of
`choices` — a well-formed body with an empty `choices` array decodes
successfully (to a `ChatResponse` whose `choices` is `[]`); the
never-empty invariant is a property of the service's bodies, not of the
decode. -/
theorem c4_empty_choices_amended :
    fromStrChatResponse c4Body
      = Except.ok { id := "resp", object := "chat.completion", created := 3
                    model := "m", choices := [], usage := Option.none
                    system_fingerprint := "f", x_groq := { id := "g" } } :=
  rfl
